import Mathlib

set_option maxRecDepth 10000

/-!
Verification of the column-driven SQL view generator in
`src/dags/ETL_theLook_Postgres.py`.

The fragment under study is pure decision logic: given the column sets of the
raw tables `order_items`, `orders` and `products`, the task `build_kpi_views`
decides which SQL statements to execute against the store (drops and creates of
the views `analytics.kpi_daily` and `analytics.category_daily`) and which
message to return.  We embed that decision logic as a pure function from the
three column sets to the list of executed statements paired with the returned
message, embed the identifier-quoting helper `_identifier` and the schema
inspector `table_columns`, and model the store's observable view state.
-/

/-- A SQL statement executed by `build_kpi_views` against the store: either
`DROP VIEW IF EXISTS name` or `CREATE VIEW name AS body`.  The `body` field
carries the exact SELECT text generated by the Python code. -/
inductive Stmt where
  | dropView (name : String)
  | createView (name : String) (body : String)
deriving DecidableEq

/-- Substring test, embedding Python's `sub in s` on strings. -/
def strContains (s sub : String) : Bool := decide (sub.data <:+: s.data)

/-- Character-level embedding of `name.replace('"', '""')` from `_identifier`
(source lines 42–44): every double-quote character is doubled. -/
def escapeQuotes : List Char → List Char
  | [] => []
  | c :: cs => if c = '"' then '"' :: '"' :: escapeQuotes cs else c :: escapeQuotes cs

/-- Character-level embedding of `_identifier` (source lines 42–44): the name
with internal double quotes doubled, wrapped in double quotes. -/
def _identifier (name : List Char) : List Char :=
  '"' :: (escapeQuotes name ++ ['"'])

/-- Modelled from the spec: how the store parses the body of a double-quoted
SQL identifier (the store itself is outside `src/`).  Inside the quotes a
doubled double-quote stands for one double-quote character; the closing quote
must end the token; an unterminated body is a parse failure. -/
def parseIdentBody : List Char → Option (List Char)
  | [] => none
  | '"' :: rest =>
      match rest with
      | '"' :: cs => (parseIdentBody cs).map (fun t => '"' :: t)
      | [] => some []
      | _ => none
  | c :: cs => (parseIdentBody cs).map (fun t => c :: t)

/-- Modelled from the spec: the store accepts a quoted identifier only if it
starts with a double quote, and then reads the body via `parseIdentBody`. -/
def parseIdentifier : List Char → Option (List Char)
  | '"' :: rest => parseIdentBody rest
  | _ => none

/-- Revenue metric resolution (source line 206): sum of `sale_price` when the
column exists in `order_items`, otherwise a row count. -/
def revenue_expr (oi_cols : List String) : String :=
  if "sale_price" ∈ oi_cols then "SUM(COALESCE(order_items.sale_price::numeric, 0))"
  else "COUNT(*)::numeric"

/-- Orders metric resolution (source line 207). -/
def orders_expr (oi_cols : List String) : String :=
  if "order_id" ∈ oi_cols then "COUNT(DISTINCT order_items.order_id)" else "COUNT(*)"

/-- Items metric (source line 208). -/
def items_expr : String := "COUNT(*)"

/-- SELECT body of the `order_items`-based `analytics.kpi_daily` view, exactly
as formatted by the template at source lines 212–224 (text after
`CREATE VIEW analytics.kpi_daily AS`). -/
def kpiDailyOIBody (date_e orders_e items_e revenue_e : String) : String :=
  "SELECT\n                            " ++ date_e ++
  " AS order_date,\n                            " ++ orders_e ++
  " AS orders,\n                            " ++ items_e ++
  " AS items,\n                            " ++ revenue_e ++
  " AS revenue,\n                            CASE WHEN " ++ orders_e ++
  " > 0 THEN " ++ revenue_e ++ " / " ++ orders_e ++
  " ELSE NULL END AS aov\n                        FROM raw.order_items AS order_items\n                        GROUP BY 1\n                        ORDER BY 1;"

/-- SELECT body of the `orders`-based fallback `analytics.kpi_daily` view,
exactly as formatted by the template at source lines 226–235. -/
def kpiDailyOrdersBody (date_e : String) : String :=
  "SELECT\n                            " ++ date_e ++
  " AS order_date,\n                            COUNT(*) AS orders\n                        FROM raw.orders AS orders\n                        GROUP BY 1\n                        ORDER BY 1;"

/-- SELECT body of the `analytics.category_daily` view, a constant template
(source lines 239–251). -/
def categoryDailyBody : String :=
  "SELECT\n                            DATE(oi.created_at::timestamp) AS order_date,\n                            p.category AS category,\n                            COUNT(*) AS items,\n                            SUM(COALESCE(oi.sale_price::numeric, 0)) AS revenue\n                        FROM raw.order_items oi\n                        JOIN raw.products p ON p.id = oi.product_id\n                        GROUP BY 1,2\n                        ORDER BY 1,2;"

/-- Statements executed once a usable date column has been chosen
(source lines 206–255): the KPI daily view uses the rich `order_items`
template when `"order_items" in from_sql`, else the simpler `orders`
template; `category_daily` is created only when `order_items.product_id`,
`products.id`, `products.category` and `order_items.sale_price` all exist,
and is dropped otherwise. -/
def buildWithDate (oi_cols p_cols : List String) (date_e from_sql : String) :
    List Stmt × String :=
  let kpiStmts :=
    if strContains from_sql "order_items" then
      [Stmt.dropView "analytics.kpi_daily",
       Stmt.createView "analytics.kpi_daily"
         (kpiDailyOIBody date_e (orders_expr oi_cols) items_expr (revenue_expr oi_cols))]
    else
      [Stmt.dropView "analytics.kpi_daily",
       Stmt.createView "analytics.kpi_daily" (kpiDailyOrdersBody date_e)]
  let catStmts :=
    if "product_id" ∈ oi_cols ∧ "id" ∈ p_cols ∧ "category" ∈ p_cols ∧ "sale_price" ∈ oi_cols then
      [Stmt.dropView "analytics.category_daily",
       Stmt.createView "analytics.category_daily" categoryDailyBody]
    else
      [Stmt.dropView "analytics.category_daily"]
  (kpiStmts ++ catStmts,
   "Views created: analytics.kpi_daily (and analytics.category_daily if columns exist).")

/-- Embedding of the task `build_kpi_views` (source lines 180–255) as a pure
function: from the column sets of `raw.order_items`, `raw.orders` and
`raw.products` to the list of statements executed against the store and the
returned message.  The date column is chosen preferring
`order_items.created_at` over `orders.created_at`; with no `created_at`
anywhere, both views are dropped and the task returns the warning message
without raising. -/
def build_kpi_views (oi_cols o_cols p_cols : List String) : List Stmt × String :=
  if "created_at" ∈ oi_cols then
    buildWithDate oi_cols p_cols "DATE(order_items.created_at::timestamp)"
      "raw.order_items AS order_items"
  else if "created_at" ∈ o_cols then
    buildWithDate oi_cols p_cols "DATE(orders.created_at::timestamp)"
      "raw.orders AS orders"
  else
    ([Stmt.dropView "analytics.kpi_daily", Stmt.dropView "analytics.category_daily"],
     "No created_at column found; skipped KPI views.")

/-- Modelled from the spec: the store's observable view state, a map from view
name to the body of the existing view of that name, if any. -/
def Store := String → Option String

/-- Modelled from the spec: effect of one statement on the store's view state.
`DROP VIEW IF EXISTS` removes the named view (and is a no-op when it does not
exist); `CREATE VIEW` registers the name with its body. -/
def applyStmt (s : Store) : Stmt → Store
  | Stmt.dropView n => fun m => if m = n then none else s m
  | Stmt.createView n b => fun m => if m = n then some b else s m

/-- Effect of a statement list on the store, first statement first. -/
def applyStmts (s : Store) : List Stmt → Store
  | [] => s
  | st :: rest => applyStmts (applyStmt s st) rest

/-- Statements that actually run when the store rejects some of them:
`build_kpi_views` wraps no statement in a handler (source lines 185–255
contain no try/except), so the client library's exception propagates at the
first rejected statement and nothing after it executes. -/
def executedStmts (rejects : Stmt → Bool) : List Stmt → List Stmt
  | [] => []
  | st :: rest => if rejects st then [st] else st :: executedStmts rejects rest

/-- Embedding of `table_columns` (source lines 76–85).  The `catalog` stands
for the rows of `information_schema.columns` as
(table_schema, table_name, column_name) triples; the query keeps the rows of
the given schema and table and the Python set comprehension collects the
column names. -/
def table_columns (catalog : List (String × String × String))
    (schema table : String) : Finset String :=
  ((catalog.filter fun r => r.1 == schema && r.2.1 == table).map fun r => r.2.2).toFinset

/-- Parsing the quoted body written by `escapeQuotes` followed by the closing
quote recovers the original character list. -/
theorem parseIdentBody_escapeQuotes (name : List Char) :
    parseIdentBody (escapeQuotes name ++ ['"']) = some name := by
  induction name with
  | nil => rfl
  | cons c cs ih =>
    by_cases hc : c = '"'
    · subst hc
      simp [escapeQuotes, parseIdentBody, ih]
    · simp [escapeQuotes, hc, parseIdentBody, ih]

/-- Claim C1: when neither `order_items` nor `orders` has a `created_at`
column, `build_kpi_views` executes exactly the two `DROP VIEW IF EXISTS`
statements (both views dropped, nothing created) and returns the "no
created_at column found" warning; being a total function of the column sets,
it returns normally rather than raising. -/
theorem C1_no_timestamp_drops_both (oi_cols o_cols p_cols : List String)
    (h1 : "created_at" ∉ oi_cols) (h2 : "created_at" ∉ o_cols) :
    build_kpi_views oi_cols o_cols p_cols =
      ([Stmt.dropView "analytics.kpi_daily", Stmt.dropView "analytics.category_daily"],
       "No created_at column found; skipped KPI views.") := by
  simp [build_kpi_views, h1, h2]

/-- Claim C1, witness: the spec's scenario
`{order_items: {id, order_id}, orders: {}}`. -/
theorem C1_witness :
    build_kpi_views ["id", "order_id"] [] [] =
      ([Stmt.dropView "analytics.kpi_daily", Stmt.dropView "analytics.category_daily"],
       "No created_at column found; skipped KPI views.") :=
  C1_no_timestamp_drops_both ["id", "order_id"] [] [] (by decide) (by decide)

/-- Claim C7: `_identifier` wraps a name in double quotes with every internal
double quote doubled (that is its definition, via `escapeQuotes`), and quoting
then parsing back as a SQL identifier is a round trip: the parsed identifier
is exactly the original name, for every name, including names containing
double quotes or spaces. -/
theorem C7_identifier_roundtrip (name : List Char) :
    parseIdentifier (_identifier name) = some name := by
  show parseIdentBody (escapeQuotes name ++ ['"']) = some name
  exact parseIdentBody_escapeQuotes name

/-- Claim C8: `table_columns` returns exactly the set of column names the
catalog records for the given schema and table, and when the catalog has no
row for that table (the table does not exist) it returns the empty set rather
than an error, so a missing table and a table with no relevant columns are
indistinguishable to callers; as a pure function it has no side effects. -/
theorem C8_table_columns_spec (catalog : List (String × String × String))
    (schema table : String) :
    (∀ c, c ∈ table_columns catalog schema table ↔ (schema, table, c) ∈ catalog) ∧
    ((∀ c, (schema, table, c) ∉ catalog) → table_columns catalog schema table = ∅) := by
  have hmem : ∀ c, c ∈ table_columns catalog schema table ↔ (schema, table, c) ∈ catalog := by
    intro c
    simp only [table_columns, List.mem_toFinset, List.mem_map, List.mem_filter,
      Bool.and_eq_true, beq_iff_eq]
    constructor
    · rintro ⟨⟨a, b, d⟩, ⟨hrow, hs, ht⟩, hc⟩
      simp only at hs ht hc
      subst hs; subst ht; subst hc
      exact hrow
    · intro hrow
      exact ⟨(schema, table, c), ⟨hrow, rfl, rfl⟩, rfl⟩
  refine ⟨hmem, fun habs => ?_⟩
  refine Finset.eq_empty_iff_forall_not_mem.mpr fun c hc => habs c ((hmem c).mp hc)

/-- Claim C8, witness: a one-row catalog; querying the recorded table finds
its column, querying an absent table yields the empty set. -/
theorem C8_witness :
    (("id" ∈ table_columns [("raw", "orders", "id")] "raw" "orders") ↔
      ("raw", "orders", "id") ∈ [("raw", "orders", "id")]) ∧
    table_columns [("raw", "orders", "id")] "raw" "order_items" = ∅ :=
  ⟨(C8_table_columns_spec [("raw", "orders", "id")] "raw" "orders").1 "id",
   (C8_table_columns_spec [("raw", "orders", "id")] "raw" "order_items").2
     (by
       intro c hc
       simp only [List.mem_singleton, Prod.mk.injEq] at hc
       exact absurd hc.2.1 (by decide))⟩

/-- Executed statements after splitting at the first rejected statement:
everything before it runs, the rejected statement itself is attempted, nothing
after it runs. -/
theorem executedStmts_stops (rejects : Stmt → Bool) (pre : List Stmt) (st : Stmt)
    (post : List Stmt) (hpre : ∀ t ∈ pre, rejects t = false) (hst : rejects st = true) :
    executedStmts rejects (pre ++ st :: post) = pre ++ [st] := by
  induction pre with
  | nil => simp [executedStmts, hst]
  | cons t rest ih =>
    have ht : rejects t = false := hpre t (List.mem_cons_self t rest)
    simp only [List.cons_append, executedStmts, ht, Bool.false_eq_true, if_false,
      List.cons.injEq, true_and]
    exact ih fun u hu => hpre u (List.mem_cons_of_mem t hu)

/-- Claim C4, counterexample: with all relevant columns present and a store
that rejects exactly the `CREATE VIEW analytics.kpi_daily` statement, the
`category_daily` statements never execute — not even its unconditional drop —
so a failure on one ViewSpec is not scoped to that ViewSpec. -/
theorem C4_counterexample :
    Stmt.dropView "analytics.category_daily" ∉
      executedStmts
        (fun st => match st with
          | Stmt.createView "analytics.kpi_daily" _ => true
          | _ => false)
        (build_kpi_views ["id", "order_id", "product_id", "sale_price", "created_at"]
          ["created_at"] ["id", "category"]).1 := by
  decide

/-- Claim C4 (amended): `build_kpi_views` wraps no statement in an error
handler, so when the store rejects a generated statement the failure is not
scoped to that ViewSpec: the exception propagates, the statements before the
rejected one and the rejected one itself are the only ones attempted, and
every later statement — including the other view's drop and create — goes
unexecuted, with no per-view context attached. -/
theorem C4_failure_aborts_rest (oi_cols o_cols p_cols : List String)
    (rejects : Stmt → Bool) (pre : List Stmt) (st : Stmt) (post : List Stmt)
    (hsplit : (build_kpi_views oi_cols o_cols p_cols).1 = pre ++ st :: post)
    (hpre : ∀ t ∈ pre, rejects t = false) (hst : rejects st = true) :
    executedStmts rejects (build_kpi_views oi_cols o_cols p_cols).1 = pre ++ [st] := by
  rw [hsplit]
  exact executedStmts_stops rejects pre st post hpre hst

/-- Claim C4 (amended), witness: rejecting the kpi_daily CREATE leaves exactly
the kpi_daily drop and the rejected create as the attempted statements. -/
theorem C4_witness :
    executedStmts
        (fun st => match st with
          | Stmt.createView "analytics.kpi_daily" _ => true
          | _ => false)
        (build_kpi_views ["id", "order_id", "product_id", "sale_price", "created_at"]
          ["created_at"] ["id", "category"]).1 =
      [Stmt.dropView "analytics.kpi_daily",
       Stmt.createView "analytics.kpi_daily"
         (kpiDailyOIBody "DATE(order_items.created_at::timestamp)"
           "COUNT(DISTINCT order_items.order_id)" "COUNT(*)"
           "SUM(COALESCE(order_items.sale_price::numeric, 0))")] :=
  C4_failure_aborts_rest
    ["id", "order_id", "product_id", "sale_price", "created_at"] ["created_at"]
    ["id", "category"] _
    [Stmt.dropView "analytics.kpi_daily"]
    (Stmt.createView "analytics.kpi_daily"
      (kpiDailyOIBody "DATE(order_items.created_at::timestamp)"
        "COUNT(DISTINCT order_items.order_id)" "COUNT(*)"
        "SUM(COALESCE(order_items.sale_price::numeric, 0))"))
    [Stmt.dropView "analytics.category_daily",
     Stmt.createView "analytics.category_daily" categoryDailyBody]
    (by decide) (by decide) (by decide)

/-- The Python substring test `"order_items" in from_sql` is true for the
order_items FROM clause. -/
theorem strContains_from_oi :
    strContains "raw.order_items AS order_items" "order_items" = true := by decide

/-- The Python substring test `"order_items" in from_sql` is false for the
orders FROM clause. -/
theorem strContains_from_o :
    strContains "raw.orders AS orders" "order_items" = false := by decide

/-- Claim C3: alternatives are tried in a fixed priority order —
`order_items.created_at` first, then `orders.created_at` — and the first
satisfiable one wins.  With `created_at` in `order_items`, the created
`kpi_daily` uses the order_items template on the order_items date expression;
with `created_at` only in `orders`, the one and only `kpi_daily` CREATE is the
complete simpler orders-based template (no column of the richer template is
silently omitted — the whole variant is swapped); with no `created_at`
anywhere nothing is created at all, i.e. both ViewSpecs' action is Dropped. -/
theorem C3_base_table_priority (oi_cols o_cols p_cols : List String) :
    ("created_at" ∈ oi_cols →
      Stmt.createView "analytics.kpi_daily"
          (kpiDailyOIBody "DATE(order_items.created_at::timestamp)" (orders_expr oi_cols)
            items_expr (revenue_expr oi_cols)) ∈ (build_kpi_views oi_cols o_cols p_cols).1) ∧
    ("created_at" ∉ oi_cols → "created_at" ∈ o_cols →
      Stmt.createView "analytics.kpi_daily"
          (kpiDailyOrdersBody "DATE(orders.created_at::timestamp)") ∈
            (build_kpi_views oi_cols o_cols p_cols).1 ∧
      ∀ b, Stmt.createView "analytics.kpi_daily" b ∈ (build_kpi_views oi_cols o_cols p_cols).1 →
        b = kpiDailyOrdersBody "DATE(orders.created_at::timestamp)") ∧
    ("created_at" ∉ oi_cols → "created_at" ∉ o_cols →
      ∀ n b, Stmt.createView n b ∉ (build_kpi_views oi_cols o_cols p_cols).1) := by
  refine ⟨fun h1 => ?_, fun h1 h2 => ⟨?_, fun b hb => ?_⟩, fun h1 h2 n b hb => ?_⟩
  · by_cases h3 : "product_id" ∈ oi_cols ∧ "id" ∈ p_cols ∧ "category" ∈ p_cols ∧
        "sale_price" ∈ oi_cols <;>
      simp [build_kpi_views, buildWithDate, h1, h3, strContains_from_oi]
  · by_cases h3 : "product_id" ∈ oi_cols ∧ "id" ∈ p_cols ∧ "category" ∈ p_cols ∧
        "sale_price" ∈ oi_cols <;>
      simp [build_kpi_views, buildWithDate, h1, h2, h3, strContains_from_o]
  · by_cases h3 : "product_id" ∈ oi_cols ∧ "id" ∈ p_cols ∧ "category" ∈ p_cols ∧
        "sale_price" ∈ oi_cols <;>
      simp [build_kpi_views, buildWithDate, h1, h2, h3, strContains_from_o] at hb <;>
      exact hb
  · simp [build_kpi_views, h1, h2] at hb

/-- Claim C3, witness: with `created_at` only in `orders`, `kpi_daily` falls
back to the orders-based variant. -/
theorem C3_witness :
    Stmt.createView "analytics.kpi_daily"
        (kpiDailyOrdersBody "DATE(orders.created_at::timestamp)") ∈
      (build_kpi_views ["id", "order_id"] ["id", "created_at"] []).1 :=
  ((C3_base_table_priority ["id", "order_id"] ["id", "created_at"] []).2.1
    (by decide) (by decide)).1

/-- Claim C2: the revenue metric resolves to the sum-of-price expression
exactly when `order_items` has `sale_price` and to the row-count expression
otherwise; every generated `kpi_daily` body uses at most one of the two
expressions (never a mix), and when the order_items variant is generated it
contains exactly the resolved one. -/
theorem C2_revenue_metric (oi_cols o_cols p_cols : List String) :
    (("sale_price" ∈ oi_cols →
        revenue_expr oi_cols = "SUM(COALESCE(order_items.sale_price::numeric, 0))") ∧
     ("sale_price" ∉ oi_cols → revenue_expr oi_cols = "COUNT(*)::numeric")) ∧
    (∀ b, Stmt.createView "analytics.kpi_daily" b ∈ (build_kpi_views oi_cols o_cols p_cols).1 →
      ¬(strContains b "SUM(COALESCE(order_items.sale_price::numeric, 0))" = true ∧
        strContains b "COUNT(*)::numeric" = true)) ∧
    ("created_at" ∈ oi_cols → "sale_price" ∈ oi_cols →
      ∃ b, Stmt.createView "analytics.kpi_daily" b ∈ (build_kpi_views oi_cols o_cols p_cols).1 ∧
        strContains b "SUM(COALESCE(order_items.sale_price::numeric, 0))" = true ∧
        strContains b "COUNT(*)::numeric" = false) ∧
    ("created_at" ∈ oi_cols → "sale_price" ∉ oi_cols →
      ∃ b, Stmt.createView "analytics.kpi_daily" b ∈ (build_kpi_views oi_cols o_cols p_cols).1 ∧
        strContains b "COUNT(*)::numeric" = true ∧
        strContains b "SUM(COALESCE(order_items.sale_price::numeric, 0))" = false) := by
  refine ⟨⟨fun hsp => by simp [revenue_expr, hsp], fun hsp => by simp [revenue_expr, hsp]⟩,
    fun b hb => ?_, fun h1 hsp => ?_, fun h1 hsp => ?_⟩
  · by_cases h1 : "created_at" ∈ oi_cols
    · by_cases hsp : "sale_price" ∈ oi_cols
      · by_cases hoid : "order_id" ∈ oi_cols <;>
          by_cases h3 : "product_id" ∈ oi_cols ∧ "id" ∈ p_cols ∧ "category" ∈ p_cols <;>
          (simp [build_kpi_views, buildWithDate, h1, hsp, hoid, h3, strContains_from_oi,
              revenue_expr, orders_expr, items_expr] at hb;
            subst hb; decide)
      · by_cases hoid : "order_id" ∈ oi_cols <;>
          (simp [build_kpi_views, buildWithDate, h1, hsp, hoid, strContains_from_oi,
              revenue_expr, orders_expr, items_expr] at hb;
            subst hb; decide)
    · by_cases h2 : "created_at" ∈ o_cols
      · by_cases h3 : "product_id" ∈ oi_cols ∧ "id" ∈ p_cols ∧ "category" ∈ p_cols ∧
            "sale_price" ∈ oi_cols <;>
          (simp [build_kpi_views, buildWithDate, h1, h2, h3, strContains_from_o] at hb;
            subst hb; decide)
      · simp [build_kpi_views, h1, h2] at hb
  · refine ⟨kpiDailyOIBody "DATE(order_items.created_at::timestamp)" (orders_expr oi_cols)
      items_expr (revenue_expr oi_cols), ?_, ?_⟩
    · by_cases h3 : "product_id" ∈ oi_cols ∧ "id" ∈ p_cols ∧ "category" ∈ p_cols ∧
          "sale_price" ∈ oi_cols <;>
        simp [build_kpi_views, buildWithDate, h1, h3, strContains_from_oi]
    · by_cases hoid : "order_id" ∈ oi_cols <;>
        (simp [revenue_expr, orders_expr, items_expr, hsp, hoid]; decide)
  · refine ⟨kpiDailyOIBody "DATE(order_items.created_at::timestamp)" (orders_expr oi_cols)
      items_expr (revenue_expr oi_cols), ?_, ?_⟩
    · by_cases h3 : "product_id" ∈ oi_cols ∧ "id" ∈ p_cols ∧ "category" ∈ p_cols ∧
          "sale_price" ∈ oi_cols <;>
        simp [build_kpi_views, buildWithDate, h1, h3, strContains_from_oi]
    · by_cases hoid : "order_id" ∈ oi_cols <;>
        (simp [revenue_expr, orders_expr, items_expr, hsp, hoid]; decide)

/-- Claim C2, witness: the spec's first scenario, where `sale_price` exists. -/
theorem C2_witness :
    revenue_expr ["id", "order_id", "product_id", "sale_price", "created_at"] =
      "SUM(COALESCE(order_items.sale_price::numeric, 0))" ∧
    ∃ b, Stmt.createView "analytics.kpi_daily" b ∈
        (build_kpi_views ["id", "order_id", "product_id", "sale_price", "created_at"]
          [] ["id", "category"]).1 ∧
      strContains b "SUM(COALESCE(order_items.sale_price::numeric, 0))" = true ∧
      strContains b "COUNT(*)::numeric" = false :=
  ⟨(C2_revenue_metric ["id", "order_id", "product_id", "sale_price", "created_at"]
      [] ["id", "category"]).1.1 (by decide),
   (C2_revenue_metric ["id", "order_id", "product_id", "sale_price", "created_at"]
      [] ["id", "category"]).2.2.1 (by decide) (by decide)⟩

/-- Claim C9: `category_daily` is created iff `created_at` exists in
`order_items` or `orders` (otherwise the early bail-out drops both views) and
`product_id` and `sale_price` exist in `order_items` and `id` and `category`
exist in `products`; and every created `category_daily` has the one constant
body, which buckets dates by `order_items.created_at` (alias `oi`) — also in
the case where `created_at` exists only in `orders`. -/
theorem C9_category_daily (oi_cols o_cols p_cols : List String) :
    ((∃ b, Stmt.createView "analytics.category_daily" b ∈
        (build_kpi_views oi_cols o_cols p_cols).1) ↔
      (("created_at" ∈ oi_cols ∨ "created_at" ∈ o_cols) ∧
       "product_id" ∈ oi_cols ∧ "sale_price" ∈ oi_cols ∧
       "id" ∈ p_cols ∧ "category" ∈ p_cols)) ∧
    ∀ b, Stmt.createView "analytics.category_daily" b ∈
        (build_kpi_views oi_cols o_cols p_cols).1 →
      b = categoryDailyBody ∧ strContains b "DATE(oi.created_at::timestamp)" = true := by
  constructor
  · by_cases h1 : "created_at" ∈ oi_cols <;>
      by_cases h2 : "created_at" ∈ o_cols <;>
      by_cases h3 : "product_id" ∈ oi_cols ∧ "id" ∈ p_cols ∧ "category" ∈ p_cols ∧
          "sale_price" ∈ oi_cols <;>
      (simp [build_kpi_views, buildWithDate, h1, h2, h3, strContains_from_oi,
          strContains_from_o] <;> tauto)
  · intro b hb
    by_cases h1 : "created_at" ∈ oi_cols <;>
      by_cases h2 : "created_at" ∈ o_cols <;>
      by_cases h3 : "product_id" ∈ oi_cols ∧ "id" ∈ p_cols ∧ "category" ∈ p_cols ∧
          "sale_price" ∈ oi_cols <;>
      simp [build_kpi_views, buildWithDate, h1, h2, h3, strContains_from_oi,
        strContains_from_o] at hb <;>
      (subst hb; exact ⟨rfl, by decide⟩)

/-- Claim C9, witness: with `created_at` only in `orders` and all join and
category columns present, `category_daily` is created. -/
theorem C9_witness :
    ∃ b, Stmt.createView "analytics.category_daily" b ∈
      (build_kpi_views ["product_id", "sale_price"] ["created_at"]
        ["id", "category"]).1 :=
  (C9_category_daily ["product_id", "sale_price"] ["created_at"]
    ["id", "category"]).1.mpr (by decide)

/-- Claim C10: every `order_items`-based `kpi_daily` body splits as a prefix,
the aov column, and a suffix, where the aov column is the division of the
revenue expression by the orders expression inside a CASE branch guarded by
the orders expression being greater than zero (ELSE NULL), and the division
sign occurs nowhere else: not in the prefix, the suffix, or either
expression. -/
theorem C10_aov_guarded (oi_cols o_cols p_cols : List String) (b : String)
    (hoi : "created_at" ∈ oi_cols)
    (hmem : Stmt.createView "analytics.kpi_daily" b ∈
      (build_kpi_views oi_cols o_cols p_cols).1) :
    ∃ pre post,
      b = pre ++ ("CASE WHEN " ++ orders_expr oi_cols ++ " > 0 THEN " ++
            revenue_expr oi_cols ++ " / " ++ orders_expr oi_cols ++
            " ELSE NULL END AS aov") ++ post ∧
      pre.data.count '/' = 0 ∧ post.data.count '/' = 0 ∧
      (orders_expr oi_cols).data.count '/' = 0 ∧
      (revenue_expr oi_cols).data.count '/' = 0 := by
  have hb : b = kpiDailyOIBody "DATE(order_items.created_at::timestamp)"
      (orders_expr oi_cols) items_expr (revenue_expr oi_cols) := by
    by_cases h3 : "product_id" ∈ oi_cols ∧ "id" ∈ p_cols ∧ "category" ∈ p_cols ∧
        "sale_price" ∈ oi_cols <;>
      simp [build_kpi_views, buildWithDate, hoi, h3, strContains_from_oi] at hmem <;>
      exact hmem
  subst hb
  by_cases hsp : "sale_price" ∈ oi_cols <;> by_cases hoid : "order_id" ∈ oi_cols
  · rw [show orders_expr oi_cols = "COUNT(DISTINCT order_items.order_id)" from if_pos hoid,
        show revenue_expr oi_cols = "SUM(COALESCE(order_items.sale_price::numeric, 0))" from if_pos hsp]
    exact ⟨"SELECT\n                            DATE(order_items.created_at::timestamp) AS order_date,\n                            COUNT(DISTINCT order_items.order_id) AS orders,\n                            COUNT(*) AS items,\n                            " ++ "SUM(COALESCE(order_items.sale_price::numeric, 0))" ++ " AS revenue,\n                            ",
      "\n                        FROM raw.order_items AS order_items\n                        GROUP BY 1\n                        ORDER BY 1;", by decide⟩
  · rw [show orders_expr oi_cols = "COUNT(*)" from if_neg hoid,
        show revenue_expr oi_cols = "SUM(COALESCE(order_items.sale_price::numeric, 0))" from if_pos hsp]
    exact ⟨"SELECT\n                            DATE(order_items.created_at::timestamp) AS order_date,\n                            COUNT(*) AS orders,\n                            COUNT(*) AS items,\n                            " ++ "SUM(COALESCE(order_items.sale_price::numeric, 0))" ++ " AS revenue,\n                            ",
      "\n                        FROM raw.order_items AS order_items\n                        GROUP BY 1\n                        ORDER BY 1;", by decide⟩
  · rw [show orders_expr oi_cols = "COUNT(DISTINCT order_items.order_id)" from if_pos hoid,
        show revenue_expr oi_cols = "COUNT(*)::numeric" from if_neg hsp]
    exact ⟨"SELECT\n                            DATE(order_items.created_at::timestamp) AS order_date,\n                            COUNT(DISTINCT order_items.order_id) AS orders,\n                            COUNT(*) AS items,\n                            " ++ "COUNT(*)::numeric" ++ " AS revenue,\n                            ",
      "\n                        FROM raw.order_items AS order_items\n                        GROUP BY 1\n                        ORDER BY 1;", by decide⟩
  · rw [show orders_expr oi_cols = "COUNT(*)" from if_neg hoid,
        show revenue_expr oi_cols = "COUNT(*)::numeric" from if_neg hsp]
    exact ⟨"SELECT\n                            DATE(order_items.created_at::timestamp) AS order_date,\n                            COUNT(*) AS orders,\n                            COUNT(*) AS items,\n                            " ++ "COUNT(*)::numeric" ++ " AS revenue,\n                            ",
      "\n                        FROM raw.order_items AS order_items\n                        GROUP BY 1\n                        ORDER BY 1;", by decide⟩

/-- Claim C10, witness: the fully-featured order_items body splits around its
guarded aov division. -/
theorem C10_witness :
    ∃ pre post,
      kpiDailyOIBody "DATE(order_items.created_at::timestamp)"
          "COUNT(DISTINCT order_items.order_id)" "COUNT(*)"
          "SUM(COALESCE(order_items.sale_price::numeric, 0))" =
        pre ++ ("CASE WHEN " ++ orders_expr ["created_at", "order_id", "sale_price"] ++
          " > 0 THEN " ++ revenue_expr ["created_at", "order_id", "sale_price"] ++
          " / " ++ orders_expr ["created_at", "order_id", "sale_price"] ++
          " ELSE NULL END AS aov") ++ post ∧
      pre.data.count '/' = 0 ∧ post.data.count '/' = 0 ∧
      (orders_expr ["created_at", "order_id", "sale_price"]).data.count '/' = 0 ∧
      (revenue_expr ["created_at", "order_id", "sale_price"]).data.count '/' = 0 :=
  C10_aov_guarded ["created_at", "order_id", "sale_price"] [] []
    (kpiDailyOIBody "DATE(order_items.created_at::timestamp)"
      "COUNT(DISTINCT order_items.order_id)" "COUNT(*)"
      "SUM(COALESCE(order_items.sale_price::numeric, 0))")
    (by decide) (by decide)

/-- Claim C6: every execution handles the two views in the fixed order
`kpi_daily` then `category_daily`; each view's drop statement appears
unconditionally (on every reachable path), any create for a view comes
immediately after that view's drop, and a create is present only when the
corresponding ViewSpec is satisfiable. -/
theorem C6_drop_before_create (oi_cols o_cols p_cols : List String) :
    ∃ ck cc,
      (build_kpi_views oi_cols o_cols p_cols).1 =
        Stmt.dropView "analytics.kpi_daily" ::
          (ck ++ Stmt.dropView "analytics.category_daily" :: cc) ∧
      (ck = [] ∨ ∃ b, ck = [Stmt.createView "analytics.kpi_daily" b]) ∧
      (cc = [] ∨ ∃ b, cc = [Stmt.createView "analytics.category_daily" b]) ∧
      (ck ≠ [] → "created_at" ∈ oi_cols ∨ "created_at" ∈ o_cols) ∧
      (cc ≠ [] → ("created_at" ∈ oi_cols ∨ "created_at" ∈ o_cols) ∧
        "product_id" ∈ oi_cols ∧ "id" ∈ p_cols ∧ "category" ∈ p_cols ∧
        "sale_price" ∈ oi_cols) := by
  by_cases h1 : "created_at" ∈ oi_cols
  · by_cases h3 : "product_id" ∈ oi_cols ∧ "id" ∈ p_cols ∧ "category" ∈ p_cols ∧
        "sale_price" ∈ oi_cols
    · refine ⟨[Stmt.createView "analytics.kpi_daily"
          (kpiDailyOIBody "DATE(order_items.created_at::timestamp)" (orders_expr oi_cols)
            items_expr (revenue_expr oi_cols))],
        [Stmt.createView "analytics.category_daily" categoryDailyBody],
        ?_, Or.inr ⟨_, rfl⟩, Or.inr ⟨_, rfl⟩, fun _ => Or.inl h1,
        fun _ => ⟨Or.inl h1, h3.1, h3.2.1, h3.2.2.1, h3.2.2.2⟩⟩
      simp [build_kpi_views, buildWithDate, h1, h3, strContains_from_oi]
    · refine ⟨[Stmt.createView "analytics.kpi_daily"
          (kpiDailyOIBody "DATE(order_items.created_at::timestamp)" (orders_expr oi_cols)
            items_expr (revenue_expr oi_cols))], [],
        ?_, Or.inr ⟨_, rfl⟩, Or.inl rfl, fun _ => Or.inl h1,
        fun hcc => absurd rfl hcc⟩
      simp [build_kpi_views, buildWithDate, h1, h3, strContains_from_oi]
  · by_cases h2 : "created_at" ∈ o_cols
    · by_cases h3 : "product_id" ∈ oi_cols ∧ "id" ∈ p_cols ∧ "category" ∈ p_cols ∧
          "sale_price" ∈ oi_cols
      · refine ⟨[Stmt.createView "analytics.kpi_daily"
            (kpiDailyOrdersBody "DATE(orders.created_at::timestamp)")],
          [Stmt.createView "analytics.category_daily" categoryDailyBody],
          ?_, Or.inr ⟨_, rfl⟩, Or.inr ⟨_, rfl⟩, fun _ => Or.inr h2,
          fun _ => ⟨Or.inr h2, h3.1, h3.2.1, h3.2.2.1, h3.2.2.2⟩⟩
        simp [build_kpi_views, buildWithDate, h1, h2, h3, strContains_from_o]
      · refine ⟨[Stmt.createView "analytics.kpi_daily"
            (kpiDailyOrdersBody "DATE(orders.created_at::timestamp)")], [],
          ?_, Or.inr ⟨_, rfl⟩, Or.inl rfl, fun _ => Or.inr h2,
          fun hcc => absurd rfl hcc⟩
        simp [build_kpi_views, buildWithDate, h1, h2, h3, strContains_from_o]
    · refine ⟨[], [], ?_, Or.inl rfl, Or.inl rfl,
        fun hck => absurd rfl hck, fun hcc => absurd rfl hcc⟩
      simp [build_kpi_views, h1, h2]

/-- Claim C6, witness: with `created_at` in `orders` only and no product
columns, the statement list is the kpi drop, its create, then the category
drop, with no category create. -/
theorem C6_witness :
    ∃ ck cc,
      (build_kpi_views [] ["created_at"] []).1 =
        Stmt.dropView "analytics.kpi_daily" ::
          (ck ++ Stmt.dropView "analytics.category_daily" :: cc) ∧
      (ck = [] ∨ ∃ b, ck = [Stmt.createView "analytics.kpi_daily" b]) ∧
      (cc = [] ∨ ∃ b, cc = [Stmt.createView "analytics.category_daily" b]) ∧
      (ck ≠ [] → "created_at" ∈ ([] : List String) ∨ "created_at" ∈ ["created_at"]) ∧
      (cc ≠ [] → ("created_at" ∈ ([] : List String) ∨ "created_at" ∈ ["created_at"]) ∧
        "product_id" ∈ ([] : List String) ∧ "id" ∈ ([] : List String) ∧
        "category" ∈ ([] : List String) ∧ "sale_price" ∈ ([] : List String)) :=
  C6_drop_before_create [] ["created_at"] []

/-- Claim C5: the synthesizer is a pure function of the ColumnSets, so two
calls on identical ColumnSets generate byte-identical SQL; and replaying the
generated statements on the store state left by the first run reproduces that
state exactly (drop-before-create makes the final state independent of the
initial one), so the second run leaves the store as the first did. -/
theorem C5_idempotent (oi_cols o_cols p_cols : List String) (s0 : Store) :
    (build_kpi_views oi_cols o_cols p_cols).1 = (build_kpi_views oi_cols o_cols p_cols).1 ∧
    applyStmts (applyStmts s0 (build_kpi_views oi_cols o_cols p_cols).1)
        (build_kpi_views oi_cols o_cols p_cols).1 =
      applyStmts s0 (build_kpi_views oi_cols o_cols p_cols).1 := by
  refine ⟨rfl, ?_⟩
  by_cases h1 : "created_at" ∈ oi_cols <;>
    by_cases h2 : "created_at" ∈ o_cols <;>
    by_cases h3 : "product_id" ∈ oi_cols ∧ "id" ∈ p_cols ∧ "category" ∈ p_cols ∧
        "sale_price" ∈ oi_cols <;>
    (funext m
     simp [build_kpi_views, buildWithDate, h1, h2, h3, strContains_from_oi,
       strContains_from_o, applyStmts, applyStmt]
     split_ifs <;> rfl)
